import Mathlib

/-!
Verification of the system wakeup-events framework
(`drivers/base/power/wakeup.c`).

The C code is shallowly embedded as pure state-passing functions.
Conventions of the embedding:

* `atomic_t` counters are 32-bit in C; the global `event_count` is modelled
  as a `Nat` with every increment taken modulo `2^32` (the wrap of
  `atomic_inc` on a 32-bit cell, read back through the `(unsigned int)`
  cast used by the C code).  `events_in_progress` is modelled as an
  unbounded `Int`: the claims under study are exactly about whether it can
  leave the small non-negative range, so no wrap is reachable in them.
* Per-source `unsigned int` statistics counters are modelled as unbounded
  `Nat` (their 2^32 wrap is irrelevant to every claim considered).
* `ktime_t` values (`last_time`, `total_time`, `max_time`) are modelled as
  unbounded `Int` nanoseconds; `ktime_get()` becomes an explicit `now`
  parameter of each entry point (one read per entry point).
* `jiffies` is an explicit `Nat` parameter; `time_after` is the kernel
  macro read on unbounded naturals (its 2^BITS_PER_LONG wrap is out of
  scope for the deadlines compared here).  `msecs_to_jiffies` is modelled
  with HZ = 1000, i.e. one jiffy per millisecond.
* A C pointer that may be NULL becomes `Option WakeupSource`; the
  spinlock-protected critical section of each entry point becomes the
  atomic application of the whole function.
* The timer collaborator is modelled by a `timer_armed` flag
  (`mod_timer` arms, `del_timer` disarms) plus a `timerFire` operation
  that may be scheduled at any point, conservatively over-approximating
  when `pm_wakeup_timer_fn` can run.
-/

/-- 2^32, the modulus of a 32-bit `atomic_t` cell. -/
def UINT_MOD : Nat := 4294967296

/-- Per-source state, the fields of `struct wakeup_source` used by
`wakeup.c` (name, list linkage and the lock itself are not modelled;
the timer object is modelled by `timer_armed`/`timer_expires`). -/
structure WakeupSource where
  active : Bool
  active_count : Nat
  event_count : Nat
  relax_count : Nat
  hit_count : Nat
  timer_expires : Nat
  timer_armed : Bool
  last_time : Int
  total_time : Int
  max_time : Int
deriving Repr, DecidableEq

/-- process-wide quiescence state of `wakeup.c`:
`events_check_enabled`, `event_count`, `saved_count`,
`events_in_progress`. -/
structure PMGlobals where
  events_check_enabled : Bool
  event_count : Nat
  saved_count : Nat
  events_in_progress : Int
deriving Repr, DecidableEq

/-- `wakeup_source_create`: `kzalloc` zero-initializes every field
(the allocation-failure branch returns NULL and is not modelled: the
claims are about the successfully created object). -/
def wakeup_source_create : WakeupSource :=
  { active := false
    active_count := 0
    event_count := 0
    relax_count := 0
    hit_count := 0
    timer_expires := 0
    timer_armed := false
    last_time := 0
    total_time := 0
    max_time := 0 }

/-- `msecs_to_jiffies`, modelled with HZ = 1000 (one jiffy per ms). -/
def msecs_to_jiffies (m : Nat) : Nat := m

/-- The kernel `time_after(a, b)` macro on unbounded naturals. -/
def time_after (a b : Nat) : Bool := b < a

/-- The individual atomic steps performed on the global counters by the
tail of `wakeup_source_deactivate`, in program order:
`atomic_inc(&event_count); smp_mb__before_atomic_dec();
atomic_dec(&events_in_progress);`. -/
inductive GlobalMicroOp where
  | atomic_inc_event_count
  | smp_mb_before_atomic_dec
  | atomic_dec_events_in_progress
deriving Repr, DecidableEq

/-- Effect of one atomic step on the global state (the barrier itself
does not change state; it marks the program-order point between the
two counter updates). -/
def applyGlobalMicroOp (op : GlobalMicroOp) (g : PMGlobals) : PMGlobals :=
  match op with
  | .atomic_inc_event_count =>
      { g with event_count := (g.event_count + 1) % UINT_MOD }
  | .smp_mb_before_atomic_dec => g
  | .atomic_dec_events_in_progress =>
      { g with events_in_progress := g.events_in_progress - 1 }

/-- Run a sequence of atomic global steps in order. -/
def runGlobalMicroOps (ops : List GlobalMicroOp) (g : PMGlobals) : PMGlobals :=
  ops.foldl (fun g op => applyGlobalMicroOp op g) g

/-- The exact sequence the deactivation path executes on the globals. -/
def deactivate_global_seq : List GlobalMicroOp :=
  [.atomic_inc_event_count, .smp_mb_before_atomic_dec,
   .atomic_dec_events_in_progress]

/-- `wakeup_source_activate`: mark the source active, bump
`active_count`, reset the deadline tracker to the current `jiffies`,
stamp `last_time`, and increment the global `events_in_progress`. -/
def wakeup_source_activate (jiffies : Nat) (now : Int)
    (ws : WakeupSource) (g : PMGlobals) : WakeupSource × PMGlobals :=
  ({ ws with
      active := true
      active_count := ws.active_count + 1
      timer_expires := jiffies
      last_time := now },
   { g with events_in_progress := g.events_in_progress + 1 })

/-- `wakeup_source_deactivate`: increment `relax_count`; if it then
differs from `active_count` (the explicit-close / timer-close
tie-break), decrement it back and return with no other side effect.
Otherwise clear `active`, account the window duration into
`total_time`/`max_time`, cancel the timer (`del_timer`), and run the
increment-barrier-decrement sequence on the globals. -/
def wakeup_source_deactivate (now : Int)
    (ws : WakeupSource) (g : PMGlobals) : WakeupSource × PMGlobals :=
  let ws1 := { ws with relax_count := ws.relax_count + 1 }
  if ws1.relax_count ≠ ws1.active_count then
    ({ ws1 with relax_count := ws1.relax_count - 1 }, g)
  else
    let duration := now - ws1.last_time
    ({ ws1 with
        active := false
        total_time := ws1.total_time + duration
        max_time := if duration > ws1.max_time then duration else ws1.max_time
        timer_armed := false },
     runGlobalMicroOps deactivate_global_seq g)

/-- `__pm_stay_awake`: NULL tolerated; bump the per-source reporting
counter and activate the source if it is not already active. -/
def __pm_stay_awake (jiffies : Nat) (now : Int)
    (ws? : Option WakeupSource) (g : PMGlobals) :
    Option WakeupSource × PMGlobals :=
  match ws? with
  | none => (none, g)
  | some ws =>
      let ws := { ws with event_count := ws.event_count + 1 }
      if ws.active then (some ws, g)
      else
        let (ws', g') := wakeup_source_activate jiffies now ws g
        (some ws', g')

/-- `__pm_relax`: NULL tolerated; deactivate only if currently active. -/
def __pm_relax (now : Int)
    (ws? : Option WakeupSource) (g : PMGlobals) :
    Option WakeupSource × PMGlobals :=
  match ws? with
  | none => (none, g)
  | some ws =>
      if ws.active then
        let (ws', g') := wakeup_source_deactivate now ws g
        (some ws', g')
      else (some ws, g)

/-- `pm_wakeup_timer_fn`: the timer callback just calls `__pm_relax`
on the owning source. -/
def pm_wakeup_timer_fn (now : Int)
    (ws? : Option WakeupSource) (g : PMGlobals) :
    Option WakeupSource × PMGlobals :=
  __pm_relax now ws? g

/-- `__pm_wakeup_event`: NULL tolerated; bump the reporting counter,
activate if inactive; with `msec = 0` deactivate immediately, otherwise
extend the auto-deactivation deadline monotonically (`mod_timer` only
when the new deadline is strictly after the tracked one). -/
def __pm_wakeup_event (jiffies : Nat) (now : Int) (msec : Nat)
    (ws? : Option WakeupSource) (g : PMGlobals) :
    Option WakeupSource × PMGlobals :=
  match ws? with
  | none => (none, g)
  | some ws =>
      let ws := { ws with event_count := ws.event_count + 1 }
      let (ws, g) :=
        if ws.active then (ws, g) else wakeup_source_activate jiffies now ws g
      if msec = 0 then
        let (ws', g') := wakeup_source_deactivate now ws g
        (some ws', g')
      else
        let expires0 := jiffies + msecs_to_jiffies msec
        let expires := if expires0 = 0 then 1 else expires0
        if time_after expires ws.timer_expires then
          (some { ws with timer_armed := true, timer_expires := expires }, g)
        else (some ws, g)

/-- `pm_wakeup_update_hit_counts`: bump `hit_count` of every currently
active registered source. -/
def pm_wakeup_update_hit_counts (srcs : List WakeupSource) :
    List WakeupSource :=
  srcs.map fun ws =>
    if ws.active then { ws with hit_count := ws.hit_count + 1 } else ws

/-- `pm_check_wakeup_events`: with the gate armed, recompute
`(event_count == saved_count) && !events_in_progress`, store the result
back into the gate and return it; with the gate unarmed return true.
On a false result update the hit counts. -/
def pm_check_wakeup_events (g : PMGlobals) (srcs : List WakeupSource) :
    Bool × PMGlobals × List WakeupSource :=
  let ret :=
    if g.events_check_enabled then
      decide (g.event_count = g.saved_count) && decide (g.events_in_progress = 0)
    else true
  let g' :=
    if g.events_check_enabled then { g with events_check_enabled := ret } else g
  (ret, g', if ret then srcs else pm_wakeup_update_hit_counts srcs)

/-- `pm_save_wakeup_count`: succeed only when `count` matches the live
`event_count` and nothing is in progress; then store `saved_count` and
arm the gate.  On failure change nothing and update the hit counts. -/
def pm_save_wakeup_count (count : Nat) (g : PMGlobals)
    (srcs : List WakeupSource) : Bool × PMGlobals × List WakeupSource :=
  if count = g.event_count ∧ g.events_in_progress = 0 then
    (true, { g with saved_count := count, events_check_enabled := true }, srcs)
  else
    (false, g, pm_wakeup_update_hit_counts srcs)

/-- One observation of the global state as read by `pm_get_wakeup_count`
at a loop-condition check (the concurrent environment may change the
counters between successive polls, so the embedding threads an explicit
trace of observations). -/
structure GObs where
  events_in_progress : Int
  event_count : Nat
  signal_pending : Bool
deriving Repr, DecidableEq

/-- The polling loop of `pm_get_wakeup_count`: spin (updating the hit
counts once per iteration) while `events_in_progress != 0` and no signal
is pending; return the observation at which the loop exits, together
with the hit-count-updated registry.  `none` means the supplied trace
ran out while the loop was still spinning. -/
def pm_get_wakeup_count_loop (srcs : List WakeupSource) :
    List GObs → Option (GObs × List WakeupSource)
  | [] => none
  | o :: rest =>
      if o.events_in_progress ≠ 0 ∧ o.signal_pending = false then
        pm_get_wakeup_count_loop (pm_wakeup_update_hit_counts srcs) rest
      else some (o, srcs)

/-- `pm_get_wakeup_count`: a privileged caller first disarms
`events_check_enabled`; then the polling loop runs; at loop exit the
returned flag is `events_in_progress == 0` and the current
`event_count` is stored through the out-pointer (modelled as the second
component of the result).  Result, when the trace suffices:
(return value, `*count`, `events_check_enabled` after the call,
registry after the call). -/
def pm_get_wakeup_count (capable : Bool) (ecEnabled : Bool)
    (srcs : List WakeupSource) (trace : List GObs) :
    Option (Bool × Nat × Bool × List WakeupSource) :=
  let ecEnabled := if capable then false else ecEnabled
  match pm_get_wakeup_count_loop srcs trace with
  | none => none
  | some (o, srcs') =>
      some (decide (o.events_in_progress = 0), o.event_count, ecEnabled, srcs')

/-- The entry points that can act on one wakeup source, each carrying
the time at which it runs (`timerFire` is `pm_wakeup_timer_fn`, which
the timer collaborator may invoke at any point). -/
inductive WOp where
  | stayAwake (jiffies : Nat) (now : Int)
  | relax (now : Int)
  | wakeupEvent (jiffies : Nat) (now : Int) (msec : Nat)
  | timerFire (now : Int)
deriving Repr, DecidableEq

/-- Apply one entry point to the (source, globals) pair. -/
def applyWOp (op : WOp) (s : Option WakeupSource × PMGlobals) :
    Option WakeupSource × PMGlobals :=
  match op with
  | .stayAwake j t => __pm_stay_awake j t s.1 s.2
  | .relax t => __pm_relax t s.1 s.2
  | .wakeupEvent j t m => __pm_wakeup_event j t m s.1 s.2
  | .timerFire t => pm_wakeup_timer_fn t s.1 s.2

/-- Run a sequence of entry points in order. -/
def runWOps (ops : List WOp) (s : Option WakeupSource × PMGlobals) :
    Option WakeupSource × PMGlobals :=
  ops.foldl (fun s op => applyWOp op s) s

/-- Per-source counter invariant: the activation and relaxation
counters differ exactly by the activity bit. -/
def srcCounterInv (ws : WakeupSource) : Prop :=
  ws.active_count = ws.relax_count + (if ws.active then 1 else 0)

/-- System invariant for one source against the globals: the counters
satisfy `srcCounterInv` and `events_in_progress` is `base` (the
contribution of all other sources) plus this source's activity bit. -/
def sysInv (base : Int) (s : Option WakeupSource × PMGlobals) : Prop :=
  match s.1 with
  | none => s.2.events_in_progress = base
  | some ws =>
      srcCounterInv ws ∧
      s.2.events_in_progress = base + (if ws.active then 1 else 0)

/-- A quiescent sample of the global state, used to exercise theorems
with hypotheses on concrete inputs. -/
def sampleGlobals : PMGlobals :=
  { events_check_enabled := false
    event_count := 10
    saved_count := 0
    events_in_progress := 0 }

/-- A sample source in the middle of an open event window. -/
def sampleActiveSource : WakeupSource :=
  { wakeup_source_create with
      active := true
      active_count := 1
      timer_expires := 100 }

/-- C1: `pm_save_wakeup_count count` succeeds exactly when `count` is the
live `event_count` and `events_in_progress` is zero; success stores
`saved_count = count` and arms `events_check_enabled` leaving the
registry alone; failure changes no global state and updates the hit
counts of all registered sources. -/
theorem C1_pm_save_wakeup_count (count : Nat) (g : PMGlobals)
    (srcs : List WakeupSource) :
    ((pm_save_wakeup_count count g srcs).1 = true ↔
        (count = g.event_count ∧ g.events_in_progress = 0)) ∧
    ((pm_save_wakeup_count count g srcs).1 = true →
        (pm_save_wakeup_count count g srcs).2 =
          ({ g with saved_count := count, events_check_enabled := true }, srcs)) ∧
    ((pm_save_wakeup_count count g srcs).1 = false →
        (pm_save_wakeup_count count g srcs).2 =
          (g, pm_wakeup_update_hit_counts srcs)) := by
  unfold pm_save_wakeup_count
  split <;> simp_all

/-- Witness for C1 at a concrete quiescent state: saving the matching
count succeeds. -/
theorem C1_pm_save_wakeup_count_witness :
    (pm_save_wakeup_count 10 sampleGlobals []).1 = true :=
  (C1_pm_save_wakeup_count 10 sampleGlobals []).1.mpr (by decide)

/-- C2: with the gate armed, `pm_check_wakeup_events` returns
`(event_count == saved_count) && !events_in_progress` and writes that
value back into `events_check_enabled`; with the gate unarmed it
returns true and changes nothing; exactly on a false result the hit
counts are updated. -/
theorem C2_pm_check_wakeup_events (g : PMGlobals) (srcs : List WakeupSource) :
    (g.events_check_enabled = true →
        (pm_check_wakeup_events g srcs).1 =
          (decide (g.event_count = g.saved_count) &&
           decide (g.events_in_progress = 0)) ∧
        (pm_check_wakeup_events g srcs).2.1 =
          { g with events_check_enabled := (pm_check_wakeup_events g srcs).1 }) ∧
    (g.events_check_enabled = false →
        (pm_check_wakeup_events g srcs).1 = true ∧
        (pm_check_wakeup_events g srcs).2.1 = g ∧
        (pm_check_wakeup_events g srcs).2.2 = srcs) ∧
    ((pm_check_wakeup_events g srcs).1 = false →
        (pm_check_wakeup_events g srcs).2.2 = pm_wakeup_update_hit_counts srcs) ∧
    ((pm_check_wakeup_events g srcs).1 = true →
        (pm_check_wakeup_events g srcs).2.2 = srcs) := by
  unfold pm_check_wakeup_events
  by_cases h : g.events_check_enabled
  · by_cases h1 : g.event_count = g.saved_count <;>
      by_cases h2 : g.events_in_progress = 0 <;> simp [h, h1, h2]
  · simp [h]

/-- Witness for C2 at a concrete armed state where the saved count is
stale: the check fails. -/
theorem C2_pm_check_wakeup_events_witness :
    (pm_check_wakeup_events { sampleGlobals with events_check_enabled := true }
        []).1 = false := by
  have h := (C2_pm_check_wakeup_events
    { sampleGlobals with events_check_enabled := true } []).1 (by decide)
  simpa [sampleGlobals] using h.1

/-- C7: `__pm_relax` on an inactive source changes neither the source
nor the globals. -/
theorem C7_relax_inactive_noop (now : Int) (ws : WakeupSource) (g : PMGlobals)
    (h : ws.active = false) :
    __pm_relax now (some ws) g = (some ws, g) := by
  simp [__pm_relax, h]

/-- Witness for C7: relaxing a freshly created source is a no-op. -/
theorem C7_relax_inactive_noop_witness :
    __pm_relax 7 (some wakeup_source_create) sampleGlobals =
      (some wakeup_source_create, sampleGlobals) :=
  C7_relax_inactive_noop 7 wakeup_source_create sampleGlobals rfl

/-- C10: a NULL wakeup-source pointer makes `__pm_stay_awake`,
`__pm_relax` and `__pm_wakeup_event` return immediately with no state
change. -/
theorem C10_null_pointer_noop (jiffies : Nat) (now : Int) (msec : Nat)
    (g : PMGlobals) :
    __pm_stay_awake jiffies now none g = (none, g) ∧
    __pm_relax now none g = (none, g) ∧
    __pm_wakeup_event jiffies now msec none g = (none, g) :=
  ⟨rfl, rfl, rfl⟩

/-- C5: `__pm_wakeup_event ws 0` is exactly `__pm_stay_awake` followed
immediately by `__pm_relax`, for every source state (NULL and
already-active included) and every global state. -/
theorem C5_wakeup_event_zero_eq_stay_then_relax (jiffies : Nat) (now : Int)
    (ws? : Option WakeupSource) (g : PMGlobals) :
    __pm_wakeup_event jiffies now 0 ws? g =
      (fun s => __pm_relax now s.1 s.2) (__pm_stay_awake jiffies now ws? g) := by
  cases ws? with
  | none => rfl
  | some ws =>
      by_cases h : ws.active <;>
        simp [__pm_wakeup_event, __pm_stay_awake, __pm_relax,
          wakeup_source_activate, h]

/-- C4: one full stay-awake/relax cycle on a freshly created source:
activation sets `active`, `active_count = 1` and bumps
`events_in_progress`; relaxing clears `active`, accounts the window
`now - last_time` into `total_time`, raises `max_time` when the
duration exceeds it, bumps the global `event_count` by one (modulo the
32-bit cell) and brings `events_in_progress` back to its initial
value. -/
theorem C4_fresh_stay_awake_relax_cycle (j : Nat) (t1 t2 : Int) (g : PMGlobals) :
    __pm_stay_awake j t1 (some wakeup_source_create) g =
      (some { active := true, active_count := 1, event_count := 1,
              relax_count := 0, hit_count := 0, timer_expires := j,
              timer_armed := false, last_time := t1, total_time := 0,
              max_time := 0 },
       { g with events_in_progress := g.events_in_progress + 1 }) ∧
    (fun s => __pm_relax t2 s.1 s.2)
        (__pm_stay_awake j t1 (some wakeup_source_create) g) =
      (some { active := false, active_count := 1, event_count := 1,
              relax_count := 1, hit_count := 0, timer_expires := j,
              timer_armed := false, last_time := t1, total_time := t2 - t1,
              max_time := if (0 : Int) < t2 - t1 then t2 - t1 else 0 },
       { g with event_count := (g.event_count + 1) % UINT_MOD }) := by
  constructor <;>
    simp [__pm_stay_awake, __pm_relax, wakeup_source_create,
      wakeup_source_activate, wakeup_source_deactivate, runGlobalMicroOps,
      deactivate_global_seq, applyGlobalMicroOp]

/-- C6: on an active source `__pm_wakeup_event` never moves
`timer_expires` earlier; a 50 ms request that lands before the tracked
deadline leaves it untouched; a 200 ms request that lands after it
extends it; and the first nonzero-timeout schedule right after
activation always takes effect and arms the timer. -/
theorem C6_timer_deadline_monotone :
    (∀ (ws : WakeupSource) (g : PMGlobals) (j : Nat) (t : Int) (m : Nat),
        ws.active = true →
        ws.timer_expires ≤
          (((__pm_wakeup_event j t m (some ws) g).1).getD ws).timer_expires) ∧
    (∀ (ws : WakeupSource) (g : PMGlobals) (j1 : Nat) (t : Int),
        ws.active = true → j1 + msecs_to_jiffies 50 ≤ ws.timer_expires →
        (((__pm_wakeup_event j1 t 50 (some ws) g).1).getD ws).timer_expires =
          ws.timer_expires) ∧
    (∀ (ws : WakeupSource) (g : PMGlobals) (j2 : Nat) (t : Int),
        ws.active = true → ws.timer_expires < j2 + msecs_to_jiffies 200 →
        (((__pm_wakeup_event j2 t 200 (some ws) g).1).getD ws).timer_expires =
          j2 + msecs_to_jiffies 200) ∧
    (∀ (ws : WakeupSource) (g : PMGlobals) (j : Nat) (t : Int) (m : Nat),
        ws.active = false → 0 < m →
        (((__pm_wakeup_event j t m (some ws) g).1).getD ws).timer_expires =
          j + msecs_to_jiffies m ∧
        (((__pm_wakeup_event j t m (some ws) g).1).getD ws).timer_armed =
          true) := by
  refine ⟨?_, ?_, ?_, ?_⟩
  · intro ws g j t m ha
    by_cases hm : m = 0
    · subst hm
      simp only [__pm_wakeup_event, ha, if_true, wakeup_source_deactivate]
      split <;> simp
    · simp only [__pm_wakeup_event, ha, if_true, hm, if_false,
        msecs_to_jiffies, time_after]
      split <;> split <;> simp_all <;> omega
  · intro ws g j1 t ha hle
    simp only [msecs_to_jiffies] at hle
    simp [__pm_wakeup_event, ha, msecs_to_jiffies, time_after]
    rw [if_neg (by omega)]
    rfl
  · intro ws g j2 t ha hlt
    simp only [msecs_to_jiffies] at hlt
    simp [__pm_wakeup_event, ha, msecs_to_jiffies, time_after]
    rw [if_pos (by omega)]
    rfl
  · intro ws g j t m ha hm
    simp only [__pm_wakeup_event, ha, wakeup_source_activate,
      msecs_to_jiffies, time_after]
    split <;> split <;> simp_all

/-- Witness for C6 on a concrete active source with deadline 100: a
50-out request at jiffy 0 leaves the deadline at 100. -/
theorem C6_timer_deadline_monotone_witness :
    (((__pm_wakeup_event 0 0 50 (some sampleActiveSource)
        sampleGlobals).1).getD sampleActiveSource).timer_expires =
      sampleActiveSource.timer_expires :=
  C6_timer_deadline_monotone.2.1 sampleActiveSource sampleGlobals 0 0
    (by decide) (by decide)

/-- C9: in the global tail of `wakeup_source_deactivate` the
`event_count` increment precedes the `events_in_progress` decrement in
program order (with the barrier between them): after any prefix of the
atomic step sequence, if `events_in_progress` has changed at all then
the incremented `event_count` is already visible; the deactivation path
(when the tie-break passes) runs exactly this sequence, whose net
effect is one increment of `event_count` and one decrement of
`events_in_progress`. -/
theorem C9_deactivate_count_ordering :
    (∀ (g : PMGlobals) (n : Nat),
        (runGlobalMicroOps (deactivate_global_seq.take n) g).events_in_progress ≠
          g.events_in_progress →
        (runGlobalMicroOps (deactivate_global_seq.take n) g).event_count =
          (g.event_count + 1) % UINT_MOD) ∧
    (∀ (now : Int) (ws : WakeupSource) (g : PMGlobals),
        ws.relax_count + 1 = ws.active_count →
        (wakeup_source_deactivate now ws g).2 =
          runGlobalMicroOps deactivate_global_seq g) ∧
    (∀ g : PMGlobals,
        (runGlobalMicroOps deactivate_global_seq g).event_count =
          (g.event_count + 1) % UINT_MOD ∧
        (runGlobalMicroOps deactivate_global_seq g).events_in_progress =
          g.events_in_progress - 1) := by
  refine ⟨?_, ?_, ?_⟩
  · intro g n h
    match n with
    | 0 => simp [runGlobalMicroOps, deactivate_global_seq] at h
    | 1 =>
        simp [runGlobalMicroOps, deactivate_global_seq,
          applyGlobalMicroOp] at h ⊢
    | 2 =>
        simp [runGlobalMicroOps, deactivate_global_seq,
          applyGlobalMicroOp] at h ⊢
    | n + 3 =>
        simp [runGlobalMicroOps, deactivate_global_seq, applyGlobalMicroOp]
  · intro now ws g h
    simp [wakeup_source_deactivate, h]
  · intro g
    simp [runGlobalMicroOps, deactivate_global_seq, applyGlobalMicroOp]

/-- Witness for C9: after the full step sequence on the sample globals
(the decrement having happened), the incremented count is visible. -/
theorem C9_deactivate_count_ordering_witness :
    (runGlobalMicroOps (deactivate_global_seq.take 3)
        sampleGlobals).event_count =
      (sampleGlobals.event_count + 1) % UINT_MOD :=
  C9_deactivate_count_ordering.1 sampleGlobals 3 (by decide)

/-- The polling loop only exits at an observation that falsifies the
spin condition: quiescent, or a pending signal. -/
theorem pm_get_wakeup_count_loop_exit_cond (trace : List GObs) :
    ∀ (srcs srcs' : List WakeupSource) (o : GObs),
      pm_get_wakeup_count_loop srcs trace = some (o, srcs') →
      o.events_in_progress = 0 ∨ o.signal_pending = true := by
  induction trace with
  | nil =>
      intro srcs srcs' o h
      simp [pm_get_wakeup_count_loop] at h
  | cons a rest ih =>
      intro srcs srcs' o h
      unfold pm_get_wakeup_count_loop at h
      split at h
      · exact ih _ _ _ h
      · rename_i hcond
        simp only [Option.some.injEq, Prod.mk.injEq] at h
        obtain ⟨ho, -⟩ := h
        subst ho
        by_cases h0 : a.events_in_progress = 0
        · exact Or.inl h0
        · by_cases hs : a.signal_pending = false
          · exact absurd ⟨h0, hs⟩ hcond
          · exact Or.inr (by simpa using hs)

/-- C8: whenever the polling loop of `pm_get_wakeup_count` exits at
observation `o`, the call returns `o.events_in_progress == 0`, writes
`o.event_count` through the out-pointer regardless of that outcome,
disarms `events_check_enabled` exactly for a privileged caller, and the
result is false if and only if the wait ended non-quiescent (which can
only happen through a pending signal). -/
theorem C8_pm_get_wakeup_count (capable ec : Bool) (srcs srcs' : List WakeupSource)
    (trace : List GObs) (o : GObs)
    (h : pm_get_wakeup_count_loop srcs trace = some (o, srcs')) :
    pm_get_wakeup_count capable ec srcs trace =
      some (decide (o.events_in_progress = 0), o.event_count,
        if capable then false else ec, srcs') ∧
    ((decide (o.events_in_progress = 0) : Bool) = false ↔
      (o.events_in_progress ≠ 0 ∧ o.signal_pending = true)) := by
  constructor
  · unfold pm_get_wakeup_count
    rw [h]
  · constructor
    · intro hfalse
      have hne : o.events_in_progress ≠ 0 := by
        simpa using hfalse
      refine ⟨hne, ?_⟩
      rcases pm_get_wakeup_count_loop_exit_cond trace srcs srcs' o h with h0 | hs
      · exact absurd h0 hne
      · exact hs
    · rintro ⟨hne, -⟩
      simpa using hne

/-- Witness for C8 on a concrete trace that spins once (two events in
flight, no signal) and then finds the system quiescent: the call
returns true, writes out the count 9 read at loop exit, and the
privileged caller has disarmed the gate. -/
theorem C8_pm_get_wakeup_count_witness :
    pm_get_wakeup_count true true [] [⟨2, 7, false⟩, ⟨0, 9, false⟩] =
      some (true, 9, false, []) := by
  have h := C8_pm_get_wakeup_count true true [] [] [⟨2, 7, false⟩, ⟨0, 9, false⟩]
    ⟨0, 9, false⟩ (by rfl)
  simpa using h.1

/-- `__pm_wakeup_event` with a zero timeout is literally the
stay-awake body followed by the relax body at the same instant. -/
theorem wakeup_event_zero_split (jiffies : Nat) (now : Int)
    (ws? : Option WakeupSource) (g : PMGlobals) :
    __pm_wakeup_event jiffies now 0 ws? g =
      (fun s => __pm_relax now s.1 s.2) (__pm_stay_awake jiffies now ws? g) := by
  cases ws? with
  | none => rfl
  | some ws =>
      by_cases h : ws.active <;>
        simp [__pm_wakeup_event, __pm_stay_awake, __pm_relax,
          wakeup_source_activate, h]

/-- `__pm_stay_awake` preserves the one-source system invariant. -/
theorem sysInv_stay_awake (base : Int) (j : Nat) (t : Int) (ws : WakeupSource)
    (g : PMGlobals) (h : sysInv base (some ws, g)) :
    sysInv base (__pm_stay_awake j t (some ws) g) := by
  obtain ⟨hc, he⟩ := h
  by_cases ha : ws.active <;>
    simp_all [__pm_stay_awake, wakeup_source_activate, sysInv, srcCounterInv, ha]

/-- `__pm_relax` preserves the one-source system invariant. -/
theorem sysInv_relax (base : Int) (t : Int) (ws : WakeupSource)
    (g : PMGlobals) (h : sysInv base (some ws, g)) :
    sysInv base (__pm_relax t (some ws) g) := by
  obtain ⟨hc, he⟩ := h
  by_cases ha : ws.active
  · simp only [srcCounterInv, ha, if_true] at hc
    simp only [ha, if_true] at he
    simp only [__pm_relax, ha, if_true, wakeup_source_deactivate]
    rw [if_neg (by omega)]
    simp [sysInv, srcCounterInv, runGlobalMicroOps, deactivate_global_seq,
      applyGlobalMicroOp, he, hc]
  · have hid : __pm_relax t (some ws) g = (some ws, g) := by
      simp [__pm_relax, ha]
    rw [hid]
    exact ⟨hc, he⟩

/-- Every entry point preserves the one-source system invariant. -/
theorem sysInv_applyWOp (base : Int) (op : WOp)
    (s : Option WakeupSource × PMGlobals) (h : sysInv base s) :
    sysInv base (applyWOp op s) := by
  obtain ⟨ws?, g⟩ := s
  cases ws? with
  | none =>
      cases op <;>
        simpa [applyWOp, __pm_stay_awake, __pm_relax, __pm_wakeup_event,
          pm_wakeup_timer_fn, sysInv] using h
  | some ws =>
      cases op with
      | stayAwake j t => exact sysInv_stay_awake base j t ws g h
      | relax t => exact sysInv_relax base t ws g h
      | timerFire t => exact sysInv_relax base t ws g h
      | wakeupEvent j t m =>
          by_cases hm : m = 0
          · subst hm
            show sysInv base (__pm_wakeup_event j t 0 (some ws) g)
            rw [wakeup_event_zero_split]
            have h1 := sysInv_stay_awake base j t ws g h
            rcases hEq : __pm_stay_awake j t (some ws) g with ⟨w1?, g1⟩
            rw [hEq] at h1
            cases w1? with
            | none =>
                exfalso
                by_cases ha : ws.active <;>
                  simp [__pm_stay_awake, wakeup_source_activate, ha] at hEq
            | some w1 =>
                simp only [hEq]
                exact sysInv_relax base t w1 g1 h1
          · obtain ⟨hc, he⟩ := h
            by_cases ha : ws.active <;>
              simp only [applyWOp, __pm_wakeup_event, ha, hm,
                wakeup_source_activate, if_true, if_false, Bool.false_eq_true] <;>
              split <;> split <;>
              simp_all [sysInv, srcCounterInv]

/-- The one-source system invariant is preserved by every sequence of
entry-point invocations. -/
theorem sysInv_runWOps (base : Int) (ops : List WOp)
    (s : Option WakeupSource × PMGlobals) (h : sysInv base s) :
    sysInv base (runWOps ops s) := by
  induction ops generalizing s with
  | nil => exact h
  | cons op rest ih =>
      have hstep := sysInv_applyWOp base op s h
      simpa [runWOps, List.foldl] using ih (applyWOp op s) hstep

/-- C3: starting from a source whose counters satisfy the invariant and
a global `events_in_progress` that is the other sources' non-negative
contribution `base` plus this source's activity bit, every interleaving
of `__pm_stay_awake`, `__pm_relax`, `__pm_wakeup_event` and timer-fired
deactivations keeps `active_count - relax_count ∈ {0, 1}` and keeps the
global `events_in_progress` non-negative. -/
theorem C3_counters_invariant (base : Int) (ops : List WOp)
    (ws : WakeupSource) (g : PMGlobals) (hb : 0 ≤ base)
    (hc : srcCounterInv ws)
    (he : g.events_in_progress = base + (if ws.active then 1 else 0)) :
    ∀ (ws' : WakeupSource) (g' : PMGlobals),
      runWOps ops (some ws, g) = (some ws', g') →
      (ws'.relax_count ≤ ws'.active_count ∧
       ws'.active_count ≤ ws'.relax_count + 1) ∧
      0 ≤ g'.events_in_progress := by
  intro ws' g' hEq
  have hinv : sysInv base (runWOps ops (some ws, g)) :=
    sysInv_runWOps base ops (some ws, g) ⟨hc, he⟩
  rw [hEq] at hinv
  obtain ⟨hc', he'⟩ := hinv
  constructor
  · constructor
    · rw [hc']; split <;> omega
    · rw [hc']; split <;> omega
  · rw [he']; split <;> omega

/-- Witness for C3 on a concrete four-operation interleaving (activate,
immediate-deactivate notification, spurious relax, spurious timer
fire) starting from a freshly created source. -/
theorem C3_counters_invariant_witness :
    ((({ active := false, active_count := 1, event_count := 2,
         relax_count := 1, hit_count := 0, timer_expires := 5,
         timer_armed := false, last_time := 10, total_time := 10,
         max_time := 10 } : WakeupSource).relax_count ≤
        ({ active := false, active_count := 1, event_count := 2,
           relax_count := 1, hit_count := 0, timer_expires := 5,
           timer_armed := false, last_time := 10, total_time := 10,
           max_time := 10 } : WakeupSource).active_count ∧
      ({ active := false, active_count := 1, event_count := 2,
         relax_count := 1, hit_count := 0, timer_expires := 5,
         timer_armed := false, last_time := 10, total_time := 10,
         max_time := 10 } : WakeupSource).active_count ≤
        ({ active := false, active_count := 1, event_count := 2,
           relax_count := 1, hit_count := 0, timer_expires := 5,
           timer_armed := false, last_time := 10, total_time := 10,
           max_time := 10 } : WakeupSource).relax_count + 1) ∧
     (0 : Int) ≤
       ({ events_check_enabled := false, event_count := 1, saved_count := 0,
          events_in_progress := 0 } : PMGlobals).events_in_progress) :=
  C3_counters_invariant 0
    [.stayAwake 5 10, .wakeupEvent 6 20 0, .relax 30, .timerFire 40]
    wakeup_source_create
    { events_check_enabled := false, event_count := 0, saved_count := 0,
      events_in_progress := 0 }
    (by decide)
    (by unfold srcCounterInv wakeup_source_create; decide)
    (by decide)
    _ _ (by decide)
